import Mathlib

/-!
A formal model of the Mini Notes client data-synchronization flow, as a
shallow embedding of the frontend sources: the Redux notes slice and api
client (frontend/src/api/client.ts together with the notes slice), the App
component with its search and create callbacks, the NoteForm component and
the SearchBar component.
-/

namespace MiniNotes

/-- A note as returned by the API (types/note.ts, Note). -/
structure Note where
  id : String
  title : String
  content : String
  created_at : String
  deriving DecidableEq

/-- The payload of a create request (types/note.ts, NoteCreate). -/
structure NoteCreate where
  title : String
  content : String
  deriving DecidableEq

/-- The Redux notes slice state (notesSlice, NotesState). -/
structure NotesState where
  items : List Note
  loading : Bool
  creating : Bool
  error : Option String
  query : String
  deriving DecidableEq

/-- The slice's initialState (notesSlice). -/
def initialState : NotesState :=
  { items := [], loading := false, creating := false, error := none, query := "" }

/-- Reducer setQuery (notesSlice): stores the search text. -/
def setQuery (payload : String) (state : NotesState) : NotesState :=
  { state with query := payload }

/-- Reducer clearError (notesSlice): sets error to null and nothing else. -/
def clearError (state : NotesState) : NotesState :=
  { state with error := none }

/-- Case reducer for the pending action of the fetchNotes thunk (notesSlice):
    loading := true, error := null. -/
def fetchNotesPending (state : NotesState) : NotesState :=
  { state with loading := true, error := none }

/-- Case reducer for the fulfilled action of the fetchNotes thunk
    (notesSlice): loading := false and items replaced wholesale by the
    action payload. -/
def fetchNotesFulfilled (payload : List Note) (state : NotesState) : NotesState :=
  { state with loading := false, items := payload }

/-- Case reducer for the rejected action of the fetchNotes thunk (notesSlice):
    loading := false and error := payload-if-non-nullish, else the fixed
    fallback message. -/
def fetchNotesRejected (payload : Option String) (state : NotesState) : NotesState :=
  { state with loading := false, error := some (payload.getD "Failed to fetch notes") }

/-- Case reducer for the pending action of the createNote thunk (notesSlice):
    creating := true, error := null. -/
def createNotePending (state : NotesState) : NotesState :=
  { state with creating := true, error := none }

/-- Case reducer for the fulfilled action of the createNote thunk
    (notesSlice): creating := false and the returned note pushed onto
    items. -/
def createNoteFulfilled (payload : Note) (state : NotesState) : NotesState :=
  { state with creating := false, items := state.items ++ [payload] }

/-- Case reducer for the rejected action of the createNote thunk
    (notesSlice). -/
def createNoteRejected (payload : Option String) (state : NotesState) : NotesState :=
  { state with creating := false, error := some (payload.getD "Failed to create note") }

/-- A JavaScript thrown value as seen by a catch block: an Error object
    carrying a message, or some non-Error value. -/
inductive JsThrown where
  | errorObj (message : String)
  | nonError
  deriving DecidableEq

/-- A failed axios request as classified by the response interceptor
    (client.ts): an axios error, with the three optional strings the
    interceptor probes (response.data.error.message, response.data.detail
    and error.message), or any other rejection value. -/
inductive AxiosFailure where
  | axiosError (dataErrorMessage dataDetail errMessage : Option String)
  | other (e : JsThrown)
  deriving DecidableEq

/-- The response interceptor (client.ts): for an axios error it rejects with
    an Error whose message is the first non-nullish of
    response.data.error.message, response.data.detail, error.message and a
    fixed fallback; any other rejection is passed through unchanged. -/
def interceptorReject (f : AxiosFailure) : JsThrown :=
  match f with
  | AxiosFailure.axiosError dataErrorMessage dataDetail errMessage =>
      JsThrown.errorObj
        (dataErrorMessage.getD (dataDetail.getD (errMessage.getD "An unexpected error occurred")))
  | AxiosFailure.other e => e

/-- The catch block shared in shape by both thunks (notesSlice): the message
    of the caught value when it is an Error instance, else the thunk's fixed
    fallback message. -/
def thunkCatchMessage (fallback : String) (e : JsThrown) : String :=
  match e with
  | JsThrown.errorObj message => message
  | JsThrown.nonError => fallback

/-- The settled result of dispatching a createAsyncThunk: the fulfilled
    value, a rejection produced by rejectWithValue, or an exception that
    escaped the thunk uncaught. -/
inductive ThunkResult (α : Type) where
  | fulfilled (value : α)
  | rejectedWith (payload : String)
  | thrown (e : JsThrown)
  deriving DecidableEq

/-- The object argument of the fetchNotes thunk (notesSlice): it has an
    optional field q; none models the property being absent. -/
structure FetchArgs where
  q : Option String
  deriving DecidableEq

/-- The q request parameter the fetchNotes thunk attaches to GET /notes
    (notesSlice): present exactly when an argument object was passed, the q
    property exists and its value is truthy; the empty string is falsy, so
    a blank q yields no parameter at all. -/
def fetchParams (args : Option FetchArgs) : Option String :=
  match args with
  | none => none
  | some a =>
      match a.q with
      | none => none
      | some q => if q = "" then none else some q

/-- The body of the fetchNotes thunk (notesSlice): a successful GET fulfils
    with the response body; every caught failure is converted with
    rejectWithValue into a rejection payload, never re-thrown. -/
def runFetchThunk (result : Except JsThrown (List Note)) : ThunkResult (List Note) :=
  match result with
  | Except.ok notes => ThunkResult.fulfilled notes
  | Except.error e => ThunkResult.rejectedWith (thunkCatchMessage "Failed to fetch notes" e)

/-- The body of the createNote thunk (notesSlice), same shape as the fetch
    thunk with its own fallback message. -/
def runCreateThunk (result : Except JsThrown Note) : ThunkResult Note :=
  match result with
  | Except.ok note => ThunkResult.fulfilled note
  | Except.error e => ThunkResult.rejectedWith (thunkCatchMessage "Failed to create note" e)

/-- True exactly when a thunk's settled result is an uncaught exception. -/
def isUncaught {α : Type} : ThunkResult α → Bool
  | ThunkResult.thrown _ => true
  | _ => false

/-- JavaScript whitespace for trim, restricted to the characters relevant
    here: ASCII whitespace, no-break space, the line and paragraph
    separators and the byte-order mark. -/
def isJsWhitespace (c : Char) : Bool :=
  c == ' ' || c == '\t' || c == '\n' || c == '\r' ||
  c == Char.ofNat 11 || c == Char.ofNat 12 || c == Char.ofNat 0xa0 ||
  c == Char.ofNat 0x2028 || c == Char.ofNat 0x2029 || c == Char.ofNat 0xfeff

/-- Trimming on the underlying character list: drop whitespace from the
    front, then from the back. -/
def trimChars (l : List Char) : List Char :=
  ((l.dropWhile isJsWhitespace).reverse.dropWhile isJsWhitespace).reverse

/-- Model of the JavaScript trim method on strings, as used by the
    components. -/
def jsTrim (s : String) : String :=
  String.mk (trimChars s.data)

/-- NoteForm.isValid (NoteForm component): both the trimmed title and the
    trimmed content have positive length. -/
def isValid (title content : String) : Bool :=
  decide ((jsTrim title).length > 0) && decide ((jsTrim content).length > 0)

/-- The disabled prop of the NoteForm submit button (NoteForm component):
    not isValid, or a create already in flight. -/
def submitDisabled (title content : String) (creating : Bool) : Bool :=
  !(isValid title content) || creating

/-- NoteForm.handleSubmit's dispatch decision (NoteForm component): the
    payload it passes to onSubmit, and hence to createNote, built from the
    trimmed fields; none when the early return fires because validation
    fails or a create is in flight. -/
def handleSubmit (title content : String) (creating : Bool) : Option NoteCreate :=
  if !(isValid title content) || creating then none
  else some { title := jsTrim title, content := jsTrim content }

/-- App.handleSearch's thunk argument (App component): an argument object
    carrying q when the query is truthy, and no argument otherwise. -/
def handleSearchArgs (query : String) : Option FetchArgs :=
  if query = "" then none else some { q := some query }

/-- The q parameter of the GET /notes request issued by a search:
    SearchBar.handleSearch passes the trimmed input to onSearch (SearchBar
    component), App.handleSearch forwards it to the fetchNotes thunk (App
    component), and the thunk builds the request parameter. -/
def searchRequestParam (input : String) : Option String :=
  fetchParams (handleSearchArgs (jsTrim input))

/-- App.handleCreate (App component): awaits the dispatch of createNote,
    which settles with the final action, then on a fulfilled match
    dispatches fetchNotes with no argument. The value models the promise
    outcome: Except.ok carries the q parameter of the re-fetch it
    dispatched, if any; if the awaited promise rejected, the exception
    would escape the uncaught body. -/
def handleCreate (result : ThunkResult Note) : Except JsThrown (Option (Option String)) :=
  match result with
  | ThunkResult.fulfilled _ => Except.ok (some (fetchParams none))
  | ThunkResult.rejectedWith _ => Except.ok none
  | ThunkResult.thrown e => Except.error e

/-- The pair of form fields after NoteForm.handleSubmit completes, with
    App.handleCreate as onSubmit: untouched on early return; both cleared
    after the awaited onSubmit resolves; untouched when that await rejects,
    since the exception aborts the handler before the clearing runs. -/
def submitFlowFields (title content : String) (creating : Bool)
    (createResult : ThunkResult Note) : String × String :=
  if !(isValid title content) || creating then (title, content)
  else
    match handleCreate createResult with
    | Except.ok _ => ("", "")
    | Except.error _ => (title, content)

/-- True when an Except-modelled promise resolves. -/
def promiseResolves {α : Type} : Except JsThrown α → Bool
  | Except.ok _ => true
  | Except.error _ => false

/-- Modelled from the spec: the post-create re-fetch that the specification
    and the repository's own frontend agent document prescribe — dispatch
    fetchNotes with the active query as q when it is non-empty and with no
    argument otherwise. It exists only for comparison with handleCreate,
    which is translated from the App component source. -/
def documentedRefetchParam (query : String) : Option String :=
  fetchParams (handleSearchArgs query)

/-- A concrete note for evaluating the flow. -/
def exampleNote : Note :=
  { id := "1", title := "Hello", content := "World", created_at := "2026-02-15T10:30:00Z" }

/-- A list whose head does not satisfy p is unchanged by dropWhile p. -/
theorem dropWhile_eq_self_of_head (p : Char → Bool) (l : List Char)
    (h : ∀ a, l.head? = some a → p a = false) : l.dropWhile p = l := by
  cases l with
  | nil => rfl
  | cons a t =>
      have ha : p a = false := h a rfl
      simp [List.dropWhile_cons, ha]

/-- The head of dropWhile p fails p. -/
theorem head_of_dropWhile_false (p : Char → Bool) (l : List Char) :
    ∀ a, (l.dropWhile p).head? = some a → p a = false := by
  intro a ha
  have h := List.head?_dropWhile_not p l
  rw [ha] at h
  exact h

/-- trimChars is idempotent: a trimmed list has no leading or trailing
    whitespace left to remove. -/
theorem trimChars_idem (l : List Char) : trimChars (trimChars l) = trimChars l := by
  unfold trimChars
  set w := isJsWhitespace with hw
  set m := l.dropWhile w with hm
  set r := m.reverse.dropWhile w with hr
  have step1 : r.reverse.dropWhile w = r.reverse := by
    apply dropWhile_eq_self_of_head
    intro a ha
    have hsplit : m.reverse.takeWhile w ++ r = m.reverse := by
      rw [hr]; exact List.takeWhile_append_dropWhile w m.reverse
    have hm2 : m = r.reverse ++ (m.reverse.takeWhile w).reverse := by
      have hc := congrArg List.reverse hsplit
      simpa [List.reverse_append] using hc.symm
    have hhead : m.head? = some a := by
      rw [hm2]
      cases hrev : r.reverse with
      | nil => rw [hrev] at ha; simp at ha
      | cons b t =>
          rw [hrev] at ha
          simp at ha
          simp [List.cons_append, ha]
    exact head_of_dropWhile_false w l a (by rw [← hm]; exact hhead)
  rw [step1, List.reverse_reverse]
  have step2 : r.dropWhile w = r := by
    apply dropWhile_eq_self_of_head
    intro a ha
    exact head_of_dropWhile_false w m.reverse a (by rw [← hr]; exact ha)
  rw [step2]

/-- jsTrim is idempotent: a trimmed string carries no leading or trailing
    whitespace. -/
theorem jsTrim_idem (s : String) : jsTrim (jsTrim s) = jsTrim s := by
  unfold jsTrim
  exact congrArg String.mk (trimChars_idem s.data)

/-- C1: the claim says the post-create re-fetch is issued with the active
    query as its q parameter; the App component instead dispatches
    fetchNotes with no argument after every fulfilled create, so the
    re-fetch carries no q parameter whatever the state's query is, while
    the documented behaviour at query python would send q=python. -/
theorem postCreateRefetchIsUnfiltered :
    (∀ (n : Note), handleCreate (ThunkResult.fulfilled n) = Except.ok (some none)) ∧
    documentedRefetchParam "python" = some "python" :=
  ⟨fun _ => rfl, by decide⟩

/-- C2: dispatching fetchNotes.pending sets loading and clears error; a
    fulfilled fetch with payload l replaces items wholesale with l,
    independently of the previous items, and resets loading. -/
theorem fetchTransitions :
    ∀ (s : NotesState) (l : List Note),
      (fetchNotesPending s).loading = true ∧
      (fetchNotesPending s).error = none ∧
      (fetchNotesFulfilled l s).items = l ∧
      (fetchNotesFulfilled l s).loading = false :=
  fun _ _ => ⟨rfl, rfl, rfl, rfl⟩

/-- C3: dispatching createNote.pending sets creating and clears error; a
    fulfilled create with note n appends n at the end of the previous items
    and resets creating. -/
theorem createTransitions :
    ∀ (s : NotesState) (n : Note),
      (createNotePending s).creating = true ∧
      (createNotePending s).error = none ∧
      (createNoteFulfilled n s).items = s.items ++ [n] ∧
      (createNoteFulfilled n s).creating = false :=
  fun _ _ => ⟨rfl, rfl, rfl, rfl⟩

/-- C4, counterexample to the claim as stated: when the server's error body
    carries an empty message, the interceptor's nullish coalescing keeps the
    empty string, the thunk rejects with it, and the rejected reducer stores
    it, so the resulting error is the empty message — not a non-empty one. -/
theorem rejectionErrorMessageCanBeEmpty :
    (fetchNotesRejected
        (some (thunkCatchMessage "Failed to fetch notes"
          (interceptorReject (AxiosFailure.axiosError (some "") none none))))
        initialState).error = some "" := rfl

/-- C4, amended: when a fetch or create is rejected, the corresponding
    in-flight flag becomes false, error becomes a non-null message — the
    rejection payload verbatim, or the operation's fixed fallback when the
    payload is absent, possibly the empty string — and items is exactly
    unchanged. -/
theorem rejectionStoresErrorLeavesItems :
    ∀ (s : NotesState) (payload : Option String),
      (fetchNotesRejected payload s).loading = false ∧
      (fetchNotesRejected payload s).error = some (payload.getD "Failed to fetch notes") ∧
      (fetchNotesRejected payload s).items = s.items ∧
      (createNoteRejected payload s).creating = false ∧
      (createNoteRejected payload s).error = some (payload.getD "Failed to create note") ∧
      (createNoteRejected payload s).items = s.items :=
  fun _ _ => ⟨rfl, rfl, rfl, rfl, rfl, rfl⟩

/-- C5: a search input whose trimmed form is empty is issued as a fetch with
    no q parameter at all; in general the issued q parameter is none for a
    blank input and the non-empty trimmed input otherwise, so q is never the
    blank string. -/
theorem blankSearchFetchesAll :
    ∀ (input : String),
      (jsTrim input = "" → searchRequestParam input = none) ∧
      searchRequestParam input =
        (if jsTrim input = "" then none else some (jsTrim input)) := by
  intro input
  have hchar : searchRequestParam input =
      (if jsTrim input = "" then none else some (jsTrim input)) := by
    by_cases h : jsTrim input = ""
    · simp [searchRequestParam, handleSearchArgs, fetchParams, h]
    · simp [searchRequestParam, handleSearchArgs, fetchParams, h]
  exact ⟨fun h => by rw [hchar, if_pos h], hchar⟩

/-- Witness for C5 at the whitespace-only input. -/
theorem blankSearchFetchesAllWitness :
    jsTrim " \t " = "" ∧ searchRequestParam " \t " = none :=
  ⟨by decide, (blankSearchFetchesAll " \t ").1 (by decide)⟩

/-- C6: a title or content that trims to empty blocks the create client-side:
    the submit button is disabled and handleSubmit returns without passing a
    payload to onSubmit, hence without dispatching createNote. -/
theorem blankFieldsBlockSubmit :
    ∀ (title content : String) (creating : Bool),
      (jsTrim title = "" ∨ jsTrim content = "") →
      handleSubmit title content creating = none ∧
      submitDisabled title content creating = true := by
  intro title content creating h
  have hv : isValid title content = false := by
    cases h with
    | inl h1 => simp [isValid, h1]
    | inr h2 => simp [isValid, h2]
  constructor
  · simp [handleSubmit, hv]
  · simp [submitDisabled, hv]

/-- Witness for C6 at a whitespace-only title. -/
theorem blankFieldsBlockSubmitWitness :
    jsTrim "   " = "" ∧
    (handleSubmit "   " "body" false = none ∧ submitDisabled "   " "body" false = true) :=
  ⟨by decide, blankFieldsBlockSubmit "   " "body" false (Or.inl (by decide))⟩

/-- C7: clearError sets error to none and leaves items, loading, creating
    and query exactly unchanged. -/
theorem clearErrorFrame :
    ∀ (s : NotesState),
      (clearError s).error = none ∧
      (clearError s).items = s.items ∧
      (clearError s).loading = s.loading ∧
      (clearError s).creating = s.creating ∧
      (clearError s).query = s.query :=
  fun _ => ⟨rfl, rfl, rfl, rfl, rfl⟩

/-- C8: every failure, whatever the interceptor classified, is converted by
    the thunks into a rejection carrying an error string, never an uncaught
    exception, and the rejected reducers store exactly that string. -/
theorem asyncFailuresAreCaught :
    ∀ (f : AxiosFailure) (s : NotesState),
      runFetchThunk (Except.error (interceptorReject f)) =
        ThunkResult.rejectedWith (thunkCatchMessage "Failed to fetch notes" (interceptorReject f)) ∧
      runCreateThunk (Except.error (interceptorReject f)) =
        ThunkResult.rejectedWith (thunkCatchMessage "Failed to create note" (interceptorReject f)) ∧
      (∀ (r : Except JsThrown (List Note)), isUncaught (runFetchThunk r) = false) ∧
      (∀ (r : Except JsThrown Note), isUncaught (runCreateThunk r) = false) ∧
      (fetchNotesRejected
          (some (thunkCatchMessage "Failed to fetch notes" (interceptorReject f))) s).error =
        some (thunkCatchMessage "Failed to fetch notes" (interceptorReject f)) ∧
      (createNoteRejected
          (some (thunkCatchMessage "Failed to create note" (interceptorReject f))) s).error =
        some (thunkCatchMessage "Failed to create note" (interceptorReject f)) := by
  intro f s
  refine ⟨rfl, rfl, ?_, ?_, rfl, rfl⟩
  · intro r; cases r <;> rfl
  · intro r; cases r <;> rfl

/-- C9: a submission passing validation dispatches exactly the trimmed pair
    as the create payload, and trimming is idempotent, so the payload
    carries no leading or trailing whitespace. -/
theorem submitPayloadIsTrimmed :
    ∀ (title content : String),
      isValid title content = true →
      handleSubmit title content false =
        some { title := jsTrim title, content := jsTrim content } ∧
      jsTrim (jsTrim title) = jsTrim title ∧
      jsTrim (jsTrim content) = jsTrim content := by
  intro title content h
  refine ⟨?_, jsTrim_idem title, jsTrim_idem content⟩
  simp [handleSubmit, h]

/-- Witness for C9 at fields with surrounding whitespace. -/
theorem submitPayloadIsTrimmedWitness :
    isValid "  Hello " " World  " = true ∧
    handleSubmit "  Hello " " World  " false =
      some { title := "Hello", content := "World" } := by
  constructor
  · decide
  · have h := (submitPayloadIsTrimmed "  Hello " " World  " (by decide)).1
    rw [h]
    decide

/-- C10: after a valid submission the title and content fields are reset to
    empty for every settled create outcome — the awaited handleCreate
    resolves on rejection as well as fulfilment, so the clearing always
    runs. -/
theorem submitClearsFieldsOnAnyOutcome :
    ∀ (title content : String) (result : Except JsThrown Note),
      isValid title content = true →
      submitFlowFields title content false (runCreateThunk result) = ("", "") ∧
      promiseResolves (handleCreate (runCreateThunk result)) = true := by
  intro title content result h
  cases result with
  | ok n => exact ⟨by simp [submitFlowFields, h, runCreateThunk, handleCreate], rfl⟩
  | error e => exact ⟨by simp [submitFlowFields, h, runCreateThunk, handleCreate], rfl⟩

/-- Witness for C10 at a rejected create. -/
theorem submitClearsFieldsOnAnyOutcomeWitness :
    isValid "Hello" "World" = true ∧
    submitFlowFields "Hello" "World" false
      (runCreateThunk (Except.error (JsThrown.errorObj "Network Error"))) = ("", "") :=
  ⟨by decide,
   (submitClearsFieldsOnAnyOutcome "Hello" "World"
      (Except.error (JsThrown.errorObj "Network Error")) (by decide)).1⟩

end MiniNotes
